import Mathlib

/-!
Shallow embedding of the strawberry-toolserver-starter repository.

The repository contains two near-identical MCP echo servers in
`src/index-gated.ts` (a token-gated variant followed by an open variant)
and a larger weather-server example embedded in `PROMPT.md`.  The
handlers are pure functions of their request plus the outcomes of the
external calls they make (the token-gate verifier, `fetch`); we embed
them as Lean functions parameterised by those outcomes.  JavaScript
`x || d` defaulting on possibly-absent strings is modelled by `jsOr`
(absent or empty string is falsy); thrown exceptions are modelled by
`Except.error` carrying the error message; `console.log` /
`console.error` output is threaded as an explicit list of log lines
where a claim depends on it.
-/

namespace Strawberry

/-- JavaScript `v || d` for an optional string: `undefined` and `""` are
falsy, every other string is truthy. -/
def jsOr (v : Option String) (d : String) : String :=
  match v with
  | none => d
  | some s => if s = "" then d else s

/-- JavaScript `v || d` where `v` is a string already in hand
(`error?.message || "Unknown error"`): only `""` is falsy.  A thrown
value without a message is modelled as `""`. -/
def jsOrStr (v d : String) : String :=
  if v = "" then d else v

/-- One content block of an MCP tool response: a type tag and a text. -/
structure ContentBlock where
  type : String
  text : String
deriving Repr, DecidableEq

/-- An MCP tool response: an ordered list of content blocks. -/
structure ToolResult where
  content : List ContentBlock
deriving Repr, DecidableEq

/-- The literal response shape `{ content: [ { type: "text", text: t } ] }`
that every return site of the repository's handlers writes out. -/
def oneText (t : String) : ToolResult :=
  { content := [ { type := "text", text := t } ] }

/-- The part of a CallTool request the echo servers look at:
`request.params.name` and `request.params.arguments?.message`.
`message = none` models both a missing `arguments` object and a missing
`message` field. -/
structure CallToolRequest where
  name : String
  message : Option String
deriving Repr, DecidableEq

/-- The declared input schema of a tool: JSON-schema `type`, the
property list (property name, its `type`, its `description`) and the
`required` names. -/
structure InputSchema where
  type : String
  properties : List (String × String × String)
  required : List String
deriving Repr, DecidableEq

/-- A tool descriptor as advertised by a ListTools handler. -/
structure ToolDescriptor where
  name : String
  description : String
  inputSchema : InputSchema
deriving Repr, DecidableEq

/-- The open variant's ListTools handler (`index-gated.ts`, second file,
`async () => ({ tools: [...] })`): it takes no input and returns the
fixed `echo` descriptor. -/
def openListTools (_ : Unit) : List ToolDescriptor :=
  [ { name := "echo"
    , description := "Echoes back whatever message you send"
    , inputSchema :=
      { type := "object"
      , properties := [("message", "string", "Message to echo back")]
      , required := ["message"] } } ]

/-- The gated variant's ListTools handler (`index-gated.ts`, first file):
fixed `echo` descriptor with the extra `strawberry_signature` field. -/
def gatedListTools (_ : Unit) : List ToolDescriptor :=
  [ { name := "echo"
    , description := "Token-gated echo service - requires 1 token to use"
    , inputSchema :=
      { type := "object"
      , properties :=
        [ ("message", "string", "Message to echo back")
        , ("strawberry_signature", "string",
           "EIP-712 signature of the request parameters") ]
      , required := ["message", "strawberry_signature"] } } ]

/-- The open variant's CallTool handler:
`async (request) => ({ content: [ { type: "text", text:
request.params.arguments?.message || "No message provided" } ] })`.
It never throws and never inspects `request.params.name`. -/
def openCallHandler (request : CallToolRequest) : Except String ToolResult :=
  Except.ok (oneText (jsOr request.message "No message provided"))

/-- Outcome of the externally supplied token-gate verifier on a request:
either it throws (an error message) or returns
`{ signerAddress, balance }`.  The balance (a bigint in the source) is a
natural number. -/
def Verifier : Type := CallToolRequest → Except String (String × Nat)

/-- The gated variant's CallTool handler: `await verifier(request)`;
on success it returns one text block
`Message from <signerAddress> (balance: <balance>): <message or default>`;
on failure it catches and re-throws
`new Error("Access denied: " + (error?.message || "Unknown error"))`. -/
def gatedCallHandler (verifier : Verifier) (request : CallToolRequest) :
    Except String ToolResult :=
  match verifier request with
  | Except.ok (signerAddress, balance) =>
      Except.ok (oneText
        ("Message from " ++ signerAddress ++ " (balance: "
          ++ toString balance ++ "): "
          ++ jsOr request.message "No message provided"))
  | Except.error e =>
      Except.error ("Access denied: " ++ jsOrStr e "Unknown error")

/-- Returns `true` exactly when the handler outcome is a thrown exception. -/
def throwsB (r : Except String ToolResult) : Bool :=
  match r with
  | Except.error _ => true
  | Except.ok _ => false

/-- Containment of `sub` in `t`: some run of characters before and after
surround it. -/
def containsStr (t sub : String) : Prop :=
  ∃ p s : List Char, t.data = p ++ sub.data ++ s

/-- The environment variables the gated variant reads. -/
structure Env where
  RPC_URL : Option String
  STRAWBERRY_NETWORK_ID : Option String
  LOCALHOST_TOKEN : Option String
deriving Repr, DecidableEq

/-- The EIP-712 domain part of the verifier options. -/
structure VerifierDomain where
  name : String
  version : String
  chainId : Option Int
deriving Repr, DecidableEq

/-- Options handed to `createTokenGateVerifier`.  `tokenAddress` comes
from `process.env.LOCALHOST_TOKEN as Address`: the `as` cast performs no
runtime check, so an absent variable flows through as `none`. -/
structure VerifierOptions where
  domain : VerifierDomain
  tokenAddress : Option String
  minTokenBalance : Nat
deriving Repr, DecidableEq

/-- JavaScript `parseInt` restricted to what the source feeds it: an
optional sign followed by leading decimal digits; no digits means `NaN`,
modelled as `none`. -/
def jsParseInt (s : String) : Option Int :=
  let chars := s.data
  let (neg, rest) :=
    match chars with
    | '-' :: cs => (true, cs)
    | '+' :: cs => (false, cs)
    | cs => (false, cs)
  let digits := rest.takeWhile (fun c => c.isDigit)
  if digits.isEmpty then none
  else
    let n : Nat := digits.foldl (fun acc c => acc * 10 + (c.toNat - 48)) 0
    some (if neg then -(n : Int) else (n : Int))

/-- The configuration the gated variant's `createServer` builds before
registering handlers. -/
structure ServerSetup where
  serverName : String
  serverVersion : String
  rpcUrl : String
  verifierOptions : VerifierOptions
deriving Repr, DecidableEq

/-- The gated variant's `createServer` configuration phase
(`index-gated.ts` lines 16-43): it reads the environment, builds the
public client URL and the verifier options, and performs no validation
whatsoever — the source has no `throw` and no check on
`LOCALHOST_TOKEN`, so the embedding is a total function and construction
succeeds on every environment. -/
def createServer (env : Env) : ServerSetup :=
  { serverName := "echo"
  , serverVersion := "1.0.0"
  , rpcUrl := jsOr env.RPC_URL "https://sepolia.base.org"
  , verifierOptions :=
    { domain :=
      { name := "Strawberry.fun"
      , version := "1"
      , chainId := jsParseInt (jsOr env.STRAWBERRY_NETWORK_ID "1") }
    , tokenAddress := env.LOCALHOST_TOKEN
    , minTokenBalance := 1 } }

/-- Modelled from the spec: the behaviour of the externally supplied
`createTokenGateVerifier` (package `@strawberryprotocol/str-toolserver`,
not part of this repository) when the token contract address is absent —
"absence of the token address yields an unusable verifier configuration
(not validated at startup)".  A configuration is usable exactly when a
token address is present. -/
def tokenGateVerifierUsable (opts : VerifierOptions) : Bool :=
  opts.tokenAddress.isSome

/-- Outcome of one `fetch(url)` call together with JSON parsing, as seen
by the weather helpers: either the fetch (or `response.json()`) threw,
or a response arrived with its `ok` flag, HTTP status, and parsed body
(the unchecked `as T` cast is modelled by the body already having the
expected type). -/
inductive FetchResult (α : Type) where
  | fetchError (msg : String)
  | response (ok : Bool) (status : Nat) (body : α)
deriving Repr

/-- The helper `makeNWSRequest` (`PROMPT.md` weather example): returns the parsed
body, or `null` after logging `console.error("Error making NWS request:",
error)` when the fetch threw or `response.ok` was false (the latter via
`throw new Error("HTTP error! status: " + status)` caught by the same
`catch`).  The second component is the log output. -/
def makeNWSRequest {α : Type} (f : FetchResult α) : Option α × List String :=
  match f with
  | FetchResult.fetchError msg =>
      (none, ["Error making NWS request: " ++ msg])
  | FetchResult.response ok status body =>
      if ok then (some body, [])
      else (none, ["Error making NWS request: HTTP error! status: "
                    ++ toString status])

/-- One result row of the Nominatim geocoding API. -/
structure GeocodingResponse where
  lat : String
  lon : String
  display_name : String
deriving Repr, DecidableEq

/-- The helper `geocodeLocation`: fetches the geocoding results and returns
`results[0] || null`; a thrown fetch or a non-ok response is caught,
logged via `console.error("Error geocoding location:", error)`, and
converted to `null`. -/
def geocodeLocation (f : FetchResult (List GeocodingResponse)) :
    Option GeocodingResponse × List String :=
  match f with
  | FetchResult.fetchError msg =>
      (none, ["Error geocoding location: " ++ msg])
  | FetchResult.response ok status body =>
      if ok then (body.head?, [])
      else (none, ["Error geocoding location: HTTP error! status: "
                    ++ toString status])

/-- A forecast period from the NWS forecast endpoint; every field may be
absent. -/
structure ForecastPeriod where
  name : Option String
  temperature : Option Int
  temperatureUnit : Option String
  windSpeed : Option String
  windDirection : Option String
  shortForecast : Option String
deriving Repr, DecidableEq

/-- The NWS points endpoint body: `properties.forecast?` is the forecast
URL, possibly absent. -/
structure PointsResponse where
  forecast : Option String
deriving Repr, DecidableEq

/-- The NWS forecast endpoint body: `properties.periods`
(`properties?.periods || []` collapses to the list itself, since an
absent list is modelled as `[]`). -/
structure ForecastResponse where
  periods : List ForecastPeriod
deriving Repr, DecidableEq

/-- JavaScript `v || d` for an optional number (`period.temperature ||
"Unknown"` renders the number, with `undefined` and `0` falsy). -/
def jsOrIntStr (v : Option Int) (d : String) : String :=
  match v with
  | none => d
  | some n => if n = 0 then d else toString n

/-- The per-period formatting in `getForecastForCoordinates`
(`periods.map(...)` joining five lines with `"\n"`). -/
def formatPeriod (period : ForecastPeriod) : String :=
  String.intercalate "\n"
    [ jsOr period.name "Unknown" ++ ":"
    , "Temperature: " ++ jsOrIntStr period.temperature "Unknown"
        ++ "Â°" ++ jsOr period.temperatureUnit "F"
    , "Wind: " ++ jsOr period.windSpeed "Unknown" ++ " "
        ++ jsOr period.windDirection ""
    , jsOr period.shortForecast "No forecast available"
    , "---" ]

/-- The helper `getForecastForCoordinates(latitude, longitude)`: two sequential
`makeNWSRequest` calls (points, then forecast), each failure converted
into a single explanatory text block.  Coordinates are carried as their
rendered strings (JavaScript float formatting is abstracted).  The
outcomes of the two fetches are passed in; the second component collects
the log output. -/
def getForecastForCoordinates (latitude longitude : String)
    (pointsFetch : FetchResult PointsResponse)
    (forecastFetch : FetchResult ForecastResponse) :
    ToolResult × List String :=
  let (pointsData, log1) := makeNWSRequest pointsFetch
  match pointsData with
  | none =>
      (oneText ("Failed to retrieve grid point data for coordinates: "
          ++ latitude ++ ", " ++ longitude
          ++ ". This location may not be supported by the NWS API (only US locations are supported)."),
       log1)
  | some pointsBody =>
    match pointsBody.forecast with
    | none =>
        (oneText "Failed to get forecast URL from grid point data", log1)
    | some _forecastUrl =>
      let (forecastData, log2) := makeNWSRequest forecastFetch
      match forecastData with
      | none =>
          (oneText "Failed to retrieve forecast data", log1 ++ log2)
      | some forecastBody =>
        if forecastBody.periods.isEmpty then
          (oneText "No forecast periods available", log1 ++ log2)
        else
          (oneText ("Forecast for " ++ latitude ++ ", " ++ longitude
              ++ ":\n\n"
              ++ String.intercalate "\n"
                  (forecastBody.periods.map formatPeriod)),
           log1 ++ log2)

/-- A Zod validation issue: the path of keys and the message
(`e.path.join(".") + ": " + e.message`). -/
structure ZodIssue where
  path : List String
  message : String
deriving Repr, DecidableEq

/-- The external-call outcomes one run of the weather CallTool handler
can consume: the Zod parse results of the two argument schemas and the
fetch outcomes of the at most three HTTP calls it performs. -/
structure WeatherOracle where
  forecastParse : Except (List ZodIssue) (String × String)
  locationParse : Except (List ZodIssue) String
  geocodeFetch : FetchResult (List GeocodingResponse)
  pointsFetch : FetchResult PointsResponse
  forecastFetch : FetchResult ForecastResponse

/-- The `Invalid arguments: ...` text of the ZodError catch branch. -/
def zodErrorText (issues : List ZodIssue) : String :=
  "Invalid arguments: "
    ++ String.intercalate ", "
        (issues.map (fun i =>
          String.intercalate "." i.path ++ ": " ++ i.message))

/-- The weather example's CallTool handler (`PROMPT.md`): routes on the
tool name, validates arguments with Zod, calls the forecast/geocoding
helpers, and catches everything thrown inside the `try` (a ZodError
becomes an `Invalid arguments: ...` block, anything else — here only the
`Unknown tool` error — becomes an `Error: <message>` block), so the
handler itself never throws.  Returns the response together with the
accumulated log output. -/
def weatherCallHandler (name : String) (o : WeatherOracle) :
    Except String ToolResult × List String :=
  if name = "get-forecast" then
    match o.forecastParse with
    | Except.error issues => (Except.ok (oneText (zodErrorText issues)), [])
    | Except.ok (latitude, longitude) =>
        let (forecast, log) :=
          getForecastForCoordinates latitude longitude o.pointsFetch o.forecastFetch
        (Except.ok { content := forecast.content }, log)
  else if name = "get-forecast-by-name" then
    match o.locationParse with
    | Except.error issues => (Except.ok (oneText (zodErrorText issues)), [])
    | Except.ok location =>
        let (geocodingResult, geoLog) := geocodeLocation o.geocodeFetch
        match geocodingResult with
        | none =>
            (Except.ok (oneText
                ("Could not find coordinates for location: " ++ location)),
             geoLog)
        | some g =>
            let (forecast, fLog) :=
              getForecastForCoordinates g.lat g.lon o.pointsFetch o.forecastFetch
            let content :=
              match forecast.content with
              | [] => []
              | b :: rest =>
                  if b.text = "" then b :: rest
                  else { b with text := "Location: " ++ g.display_name
                          ++ "\n\n" ++ b.text } :: rest
            (Except.ok { content := content }, geoLog ++ fLog)
  else
    (Except.ok (oneText ("Error: " ++ ("Unknown tool: " ++ name))), [])

/-- Returns `true` when an MCP result has exactly one content block and its type
tag is `"text"`. -/
def singleTextBlockB (r : ToolResult) : Bool :=
  r.content.length == 1 && r.content.all (fun b => b.type == "text")

/-- Lifts `singleTextBlockB` over a possibly-throwing handler outcome:
a thrown exception produces no result, so it is vacuously fine. -/
def okSingleTextB (r : Except String ToolResult) : Bool :=
  match r with
  | Except.error _ => true
  | Except.ok result => singleTextBlockB result

/-- Outcome of a whole server process after startup: still running (with
its readiness log), or exited with a code and the log lines written on
the way down. -/
inductive ProcOutcome where
  | running (log : List String)
  | exited (code : Nat) (log : List String)
deriving Repr, DecidableEq

/-- Open variant startup (`index-gated.ts`, second file): `main()` calls
`app.listen(3000, ...)`; `main().catch` logs
`"Fatal error in main():"` with the error and calls `process.exit(1)`.
The outcome of the bind is passed in as `listen`. -/
def openStartup (listen : Except String Unit) : ProcOutcome :=
  match listen with
  | Except.ok _ =>
      ProcOutcome.running ["Echo server running on http://localhost:3000"]
  | Except.error e =>
      ProcOutcome.exited 1 ["Fatal error in main(): " ++ e]

/-- Gated variant startup (`index-gated.ts`, first file): `app.listen`
runs at top level with no handler, so a thrown startup error is an
uncaught exception; the Node.js runtime's default for an uncaught
exception — print the error and exit with status 1 — is part of the
script semantics embedded here. -/
def gatedStartup (listen : Except String Unit) : ProcOutcome :=
  match listen with
  | Except.ok _ =>
      ProcOutcome.running
        ["Token-gated echo server running on http://localhost:3000"]
  | Except.error e => ProcOutcome.exited 1 [e]

/-- Weather example startup (`PROMPT.md`): like the open variant but the
port is picked from 3000-3100 by `getPort`, passed in here. -/
def weatherStartup (port : Nat) (listen : Except String Unit) : ProcOutcome :=
  match listen with
  | Except.ok _ =>
      ProcOutcome.running
        ["Weather MCP Server running on http://localhost:" ++ toString port]
  | Except.error e =>
      ProcOutcome.exited 1 ["Fatal error in main(): " ++ e]

/-- A process outcome that died: non-zero code and at least one logged
line. -/
def diedNonzeroLogged (o : ProcOutcome) : Prop :=
  match o with
  | ProcOutcome.running _ => False
  | ProcOutcome.exited code log => code ≠ 0 ∧ log ≠ []

end Strawberry

open Strawberry

/-- C4: every list-tools handler returns, with no side effects, exactly
the statically declared descriptors — open variant: one tool `echo` with
required fields `["message"]`; gated variant: one tool `echo` with
required fields `["message", "strawberry_signature"]` — identical on
every invocation. -/
theorem listTools_static :
    (∀ u v : Unit, openListTools u = openListTools v) ∧
    (∀ u v : Unit, gatedListTools u = gatedListTools v) ∧
    openListTools () =
      [ { name := "echo"
        , description := "Echoes back whatever message you send"
        , inputSchema :=
          { type := "object"
          , properties := [("message", "string", "Message to echo back")]
          , required := ["message"] } } ] ∧
    gatedListTools () =
      [ { name := "echo"
        , description := "Token-gated echo service - requires 1 token to use"
        , inputSchema :=
          { type := "object"
          , properties :=
            [ ("message", "string", "Message to echo back")
            , ("strawberry_signature", "string",
               "EIP-712 signature of the request parameters") ]
          , required := ["message", "strawberry_signature"] } } ] ∧
    (openListTools ()).map (fun t => t.inputSchema.required) = [["message"]] ∧
    (gatedListTools ()).map (fun t => t.inputSchema.required) =
      [["message", "strawberry_signature"]] :=
  ⟨fun _ _ => rfl, fun _ _ => rfl, rfl, rfl, rfl, rfl⟩

/-- C3: the gated variant's server construction succeeds on every
environment, including one with no `LOCALHOST_TOKEN`: no startup
validation is performed, the absent address flows into the verifier
options as-is, and (modelled from the spec) the resulting verifier
configuration is unusable — the failure is deferred to first use. -/
theorem createServer_no_validation (r s : Option String) (env : Env) :
    createServer
        { RPC_URL := r
        , STRAWBERRY_NETWORK_ID := s
        , LOCALHOST_TOKEN := none } =
      { serverName := "echo"
      , serverVersion := "1.0.0"
      , rpcUrl := jsOr r "https://sepolia.base.org"
      , verifierOptions :=
        { domain :=
          { name := "Strawberry.fun"
          , version := "1"
          , chainId := jsParseInt (jsOr s "1") }
        , tokenAddress := none
        , minTokenBalance := 1 } } ∧
    tokenGateVerifierUsable
      (createServer
        { RPC_URL := r
        , STRAWBERRY_NETWORK_ID := s
        , LOCALHOST_TOKEN := none }).verifierOptions = false ∧
    (createServer env).verifierOptions.tokenAddress = env.LOCALHOST_TOKEN :=
  ⟨rfl, rfl, rfl⟩

/-- C6 counterexample: in the gated variant under a succeeding verifier,
invoking with no `message` field yields the text
`Message from 0xABC (balance: 1): No message provided`, which is not
equal to the configured default string `No message provided`. -/
theorem gated_default_not_bare :
    gatedCallHandler (fun _ => Except.ok ("0xABC", 1))
        { name := "echo", message := none }
      = Except.ok (oneText "Message from 0xABC (balance: 1): No message provided") ∧
    "Message from 0xABC (balance: 1): No message provided"
      ≠ "No message provided" :=
  ⟨rfl, by decide⟩

/-- C6 amended: with no `message` field the open variant's response text
equals `No message provided`; the gated variant (succeeding verifier)
embeds that default after its `Message from <signer> (balance: <b>): `
preamble rather than returning it verbatim. -/
theorem default_on_missing_message (name signer : String) (balance : Nat) :
    openCallHandler { name := name, message := none }
      = Except.ok (oneText "No message provided") ∧
    gatedCallHandler (fun _ => Except.ok (signer, balance))
        { name := name, message := none }
      = Except.ok (oneText ("Message from " ++ signer ++ " (balance: "
          ++ toString balance ++ "): " ++ "No message provided")) :=
  ⟨rfl, rfl⟩

/-- C9 counterexample: in the gated variant under a succeeding verifier,
a `message` field bound to the empty string yields the text
`Message from 0xABC (balance: 1): No message provided`, which is neither
`No message provided` nor the empty string. -/
theorem gated_empty_message_not_bare :
    gatedCallHandler (fun _ => Except.ok ("0xABC", 1))
        { name := "echo", message := some "" }
      = Except.ok (oneText "Message from 0xABC (balance: 1): No message provided") ∧
    "Message from 0xABC (balance: 1): No message provided"
      ≠ "No message provided" ∧
    "Message from 0xABC (balance: 1): No message provided" ≠ "" :=
  ⟨rfl, by decide, by decide⟩

/-- C9 amended: a `message` bound to `""` is falsy, so the default
substitution fires in both variants: the open variant's text is
`No message provided` (not `""`), and the gated variant embeds
`No message provided` in place of the empty message. -/
theorem default_on_empty_message (name signer : String) (balance : Nat) :
    openCallHandler { name := name, message := some "" }
      = Except.ok (oneText "No message provided") ∧
    gatedCallHandler (fun _ => Except.ok (signer, balance))
        { name := name, message := some "" }
      = Except.ok (oneText ("Message from " ++ signer ++ " (balance: "
          ++ toString balance ++ "): " ++ "No message provided")) ∧
    "No message provided" ≠ "" :=
  ⟨rfl, rfl, by decide⟩

/-- C1 counterexample: with a verifier that rejects with the message
`insufficient token balance for signer 0xFEED`, the gated handler does
not yield any denial result — it throws — and the thrown message is
`Access denied: ` followed verbatim by that raw internal error detail. -/
theorem gated_denial_propagates_detail :
    gatedCallHandler
        (fun _ => Except.error "insufficient token balance for signer 0xFEED")
        { name := "echo", message := some "hello" }
      = Except.error
          ("Access denied: " ++ "insufficient token balance for signer 0xFEED") ∧
    throwsB (gatedCallHandler
        (fun _ => Except.error "insufficient token balance for signer 0xFEED")
        { name := "echo", message := some "hello" }) = true :=
  ⟨rfl, rfl⟩

/-- C1 amended: when the verifier rejects, the gated handler catches the
failure and re-throws an error whose message is exactly `Access denied: `
followed by the underlying error's message (`Unknown error` when that is
empty) — so the underlying detail is propagated, and the request's
message content does not enter the thrown text (it appears nowhere on
the right-hand side). -/
theorem gated_denial_rethrows (verifier : Verifier)
    (request : CallToolRequest) (e : String)
    (h : verifier request = Except.error e) :
    gatedCallHandler verifier request =
      Except.error ("Access denied: " ++ jsOrStr e "Unknown error") := by
  simp only [gatedCallHandler, h]

/-- Witness for the C1 amended theorem at a concrete rejecting verifier. -/
theorem gated_denial_rethrows_witness :
    gatedCallHandler (fun _ => Except.error "bad signature")
        { name := "echo", message := some "hi" }
      = Except.error ("Access denied: " ++ jsOrStr "bad signature" "Unknown error") :=
  gated_denial_rethrows (fun _ => Except.error "bad signature")
    { name := "echo", message := some "hi" } "bad signature" rfl

/-- C2 counterexample: `definitely-not-a-tool` is not among the open
variant's declared tool names, yet the open call handler returns a
normal success echoing the message — not an error or denial response. -/
theorem open_handler_ignores_unknown_name :
    openCallHandler { name := "definitely-not-a-tool", message := some "hello" }
      = Except.ok (oneText "hello") ∧
    (openListTools ()).map ToolDescriptor.name = ["echo"] ∧
    "definitely-not-a-tool" ∉ (openListTools ()).map ToolDescriptor.name :=
  ⟨rfl, rfl, by decide⟩

/-- C2 amended: the open handler never inspects the tool name (its
response depends only on the message), so an unrecognized name gets the
ordinary echo response; only the weather example routes on the name, and
there an unrecognized name yields a caught `Error: Unknown tool: <name>`
text response — the handler returns it, nothing escapes uncaught. -/
theorem unknown_tool_routing (name : String) (msg : Option String)
    (o : WeatherOracle)
    (h1 : name ≠ "get-forecast") (h2 : name ≠ "get-forecast-by-name") :
    openCallHandler { name := name, message := msg }
      = openCallHandler { name := "echo", message := msg } ∧
    (weatherCallHandler name o).1
      = Except.ok (oneText ("Error: " ++ ("Unknown tool: " ++ name))) := by
  refine ⟨rfl, ?_⟩
  simp only [weatherCallHandler, if_neg h1, if_neg h2]

/-- Fixed external-call outcomes used to witness the weather handler
theorems on a concrete input. -/
def woracle0 : WeatherOracle :=
  { forecastParse := Except.error []
  , locationParse := Except.error []
  , geocodeFetch := FetchResult.fetchError "net down"
  , pointsFetch := FetchResult.fetchError "net down"
  , forecastFetch := FetchResult.fetchError "net down" }

/-- Witness for the C2 amended theorem at the concrete unrecognized tool
name `frobnicate`. -/
theorem unknown_tool_routing_witness :
    openCallHandler { name := "frobnicate", message := some "x" }
      = openCallHandler { name := "echo", message := some "x" } ∧
    (weatherCallHandler "frobnicate" woracle0).1
      = Except.ok (oneText ("Error: " ++ ("Unknown tool: " ++ "frobnicate"))) :=
  unknown_tool_routing "frobnicate" (some "x") woracle0 (by decide) (by decide)

/-- C5: when the verifier succeeds on a request carrying a message,
returning a signer address and a balance, the gated handler's response
is a single text block whose text contains that signer address, that
balance, and the original message. -/
theorem gated_success_embeds (verifier : Verifier) (name signer msg : String)
    (balance : Nat)
    (h : verifier { name := name, message := some msg }
          = Except.ok (signer, balance)) :
    gatedCallHandler verifier { name := name, message := some msg }
      = Except.ok (oneText ("Message from " ++ signer ++ " (balance: "
          ++ toString balance ++ "): "
          ++ jsOr (some msg) "No message provided")) ∧
    containsStr ("Message from " ++ signer ++ " (balance: "
        ++ toString balance ++ "): "
        ++ jsOr (some msg) "No message provided") signer ∧
    containsStr ("Message from " ++ signer ++ " (balance: "
        ++ toString balance ++ "): "
        ++ jsOr (some msg) "No message provided") (toString balance) ∧
    containsStr ("Message from " ++ signer ++ " (balance: "
        ++ toString balance ++ "): "
        ++ jsOr (some msg) "No message provided") msg := by
  refine ⟨by simp only [gatedCallHandler, h], ?_, ?_, ?_⟩
  · exact ⟨"Message from ".data,
      (" (balance: " ++ toString balance ++ "): "
        ++ jsOr (some msg) "No message provided").data,
      by simp [String.data_append]⟩
  · exact ⟨("Message from " ++ signer ++ " (balance: ").data,
      ("): " ++ jsOr (some msg) "No message provided").data,
      by simp [String.data_append]⟩
  · by_cases hm : msg = ""
    · subst hm
      exact ⟨("Message from " ++ signer ++ " (balance: "
          ++ toString balance ++ "): "
          ++ jsOr (some "") "No message provided").data, [],
        by simp [String.data_append]⟩
    · refine ⟨("Message from " ++ signer ++ " (balance: "
          ++ toString balance ++ "): ").data, [], ?_⟩
      simp [String.data_append, jsOr, if_neg hm]

/-- Witness for C5 at a concrete succeeding verifier. -/
theorem gated_success_embeds_witness :
    gatedCallHandler (fun _ => Except.ok ("0xCAFE", 7))
        { name := "echo", message := some "ping" }
      = Except.ok (oneText ("Message from " ++ "0xCAFE" ++ " (balance: "
          ++ toString 7 ++ "): " ++ jsOr (some "ping") "No message provided")) ∧
    containsStr ("Message from " ++ "0xCAFE" ++ " (balance: "
        ++ toString 7 ++ "): "
        ++ jsOr (some "ping") "No message provided") "0xCAFE" ∧
    containsStr ("Message from " ++ "0xCAFE" ++ " (balance: "
        ++ toString 7 ++ "): "
        ++ jsOr (some "ping") "No message provided") (toString 7) ∧
    containsStr ("Message from " ++ "0xCAFE" ++ " (balance: "
        ++ toString 7 ++ "): "
        ++ jsOr (some "ping") "No message provided") "ping" :=
  gated_success_embeds (fun _ => Except.ok ("0xCAFE", 7))
    "echo" "0xCAFE" "ping" 7 rfl

/-- C8: in every server variant a failed bind — a thrown startup error —
terminates the process with a non-zero exit status and a logged message:
the open and weather variants via `main().catch` logging
`Fatal error in main():` and calling `process.exit(1)`, the gated
variant via the runtime's handling of the uncaught top-level exception. -/
theorem startup_failure_exits_nonzero (e : String) (port : Nat) :
    openStartup (Except.error e)
      = ProcOutcome.exited 1 ["Fatal error in main(): " ++ e] ∧
    gatedStartup (Except.error e) = ProcOutcome.exited 1 [e] ∧
    weatherStartup port (Except.error e)
      = ProcOutcome.exited 1 ["Fatal error in main(): " ++ e] ∧
    diedNonzeroLogged (openStartup (Except.error e)) ∧
    diedNonzeroLogged (gatedStartup (Except.error e)) ∧
    diedNonzeroLogged (weatherStartup port (Except.error e)) :=
  ⟨rfl, rfl, rfl,
   ⟨one_ne_zero, by simp⟩, ⟨one_ne_zero, by simp⟩, ⟨one_ne_zero, by simp⟩⟩

/-- C7: every failed external HTTP call (a thrown fetch or a non-ok
response) is caught inside `makeNWSRequest` / `geocodeLocation`, logged,
and turned into `null`; and the callers turn that `null` into a
user-facing text explanation: the points failure, the forecast failure,
and the geocoding failure each become a single explanatory text block. -/
theorem external_failures_contained (α : Type) (body : α)
    (m loc lat lon u : String) (status : Nat)
    (gb : List GeocodingResponse)
    (fp : Except (List ZodIssue) (String × String))
    (pf : FetchResult PointsResponse) (ff : FetchResult ForecastResponse) :
    makeNWSRequest (α := α) (FetchResult.fetchError m)
      = (none, ["Error making NWS request: " ++ m]) ∧
    makeNWSRequest (FetchResult.response false status body)
      = (none, ["Error making NWS request: HTTP error! status: "
          ++ toString status]) ∧
    geocodeLocation (FetchResult.fetchError m)
      = (none, ["Error geocoding location: " ++ m]) ∧
    geocodeLocation (FetchResult.response false status gb)
      = (none, ["Error geocoding location: HTTP error! status: "
          ++ toString status]) ∧
    getForecastForCoordinates lat lon (FetchResult.fetchError m) ff
      = (oneText ("Failed to retrieve grid point data for coordinates: "
          ++ lat ++ ", " ++ lon
          ++ ". This location may not be supported by the NWS API (only US locations are supported)."),
         ["Error making NWS request: " ++ m]) ∧
    getForecastForCoordinates lat lon
        (FetchResult.response true status { forecast := some u })
        (FetchResult.fetchError m)
      = (oneText "Failed to retrieve forecast data",
         ["Error making NWS request: " ++ m]) ∧
    weatherCallHandler "get-forecast-by-name"
        { forecastParse := fp
        , locationParse := Except.ok loc
        , geocodeFetch := FetchResult.fetchError m
        , pointsFetch := pf
        , forecastFetch := ff }
      = (Except.ok (oneText ("Could not find coordinates for location: " ++ loc)),
         ["Error geocoding location: " ++ m]) :=
  ⟨rfl, rfl, rfl, rfl, rfl, rfl, rfl⟩

/-- Every branch of `getForecastForCoordinates` returns a single text
block: its response is `oneText t` for some `t`, alongside some log. -/
theorem getForecast_oneText (lat lon : String)
    (pf : FetchResult PointsResponse) (ff : FetchResult ForecastResponse) :
    ∃ t log, getForecastForCoordinates lat lon pf ff = (oneText t, log) := by
  rcases pf with m | ⟨ok, st, pb⟩
  · exact ⟨_, _, rfl⟩
  · cases ok
    · exact ⟨_, _, rfl⟩
    · rcases pb with ⟨_ | u⟩
      · exact ⟨_, _, rfl⟩
      · rcases ff with m2 | ⟨ok2, st2, fb⟩
        · exact ⟨_, _, rfl⟩
        · cases ok2
          · exact ⟨_, _, rfl⟩
          · cases hE : fb.periods.isEmpty
            · exact ⟨"Forecast for " ++ lat ++ ", " ++ lon ++ ":\n\n"
                  ++ String.intercalate "\n" (fb.periods.map formatPeriod), [],
                by simp [getForecastForCoordinates, makeNWSRequest, hE]⟩
            · exact ⟨"No forecast periods available", [],
                by simp [getForecastForCoordinates, makeNWSRequest, hE]⟩

/-- C10: every non-throwing result of the repository's call-tool
handlers — open echo, gated echo, and every branch of the weather
example — has a content array of exactly one block whose type tag is
`"text"`. -/
theorem results_single_text_block (request : CallToolRequest)
    (verifier : Verifier) (name : String) (o : WeatherOracle) :
    okSingleTextB (openCallHandler request) = true ∧
    okSingleTextB (gatedCallHandler verifier request) = true ∧
    okSingleTextB (weatherCallHandler name o).1 = true := by
  refine ⟨rfl, ?_, ?_⟩
  · cases h : verifier request with
    | error e => simp [gatedCallHandler, h, okSingleTextB]
    | ok v => simp [gatedCallHandler, h, okSingleTextB, singleTextBlockB, oneText]
  · by_cases h1 : name = "get-forecast"
    · cases hp : o.forecastParse with
      | error issues => simp [weatherCallHandler, h1, hp, okSingleTextB,
          singleTextBlockB, oneText]
      | ok v =>
        obtain ⟨t, log, ht⟩ :=
          getForecast_oneText v.1 v.2 o.pointsFetch o.forecastFetch
        simp [weatherCallHandler, h1, hp, ht, okSingleTextB,
          singleTextBlockB, oneText]
    · by_cases h2 : name = "get-forecast-by-name"
      · cases hp : o.locationParse with
        | error issues => simp [weatherCallHandler, h1, h2, hp, okSingleTextB,
            singleTextBlockB, oneText]
        | ok loc =>
          obtain ⟨g, glog, hg⟩ :
              ∃ g log, geocodeLocation o.geocodeFetch = (g, log) :=
            ⟨_, _, rfl⟩
          cases g with
          | none => simp [weatherCallHandler, h1, h2, hp, hg, okSingleTextB,
              singleTextBlockB, oneText]
          | some gg =>
            obtain ⟨t, log, ht⟩ :=
              getForecast_oneText gg.lat gg.lon o.pointsFetch o.forecastFetch
            by_cases hT : t = ""
            · simp [weatherCallHandler, h1, h2, hp, hg, ht, hT, okSingleTextB,
                singleTextBlockB, oneText]
            · simp [weatherCallHandler, h1, h2, hp, hg, ht, hT, okSingleTextB,
                singleTextBlockB, oneText]
      · simp [weatherCallHandler, h1, h2, okSingleTextB,
          singleTextBlockB, oneText]
